/-
  Verification of the athlete resource controller
  (src/workout_api/atleta/controller.py) against its specification.

  Shallow embedding: the database session is modelled as an explicit `Store`
  value threaded through each operation; SQLAlchemy `select ... filter_by`
  queries become `List.find?` / `List.filter` over the store's lists; raised
  `HTTPException`s become `Except.error` carrying the status code and detail
  message.  Nondeterministic inputs of the handlers (`uuid4()`,
  `datetime.utcnow()`, the pagination parameters resolved by the pagination
  library from the request context, and the outcome of `commit` in the
  store) are passed as explicit parameters.
-/
import Mathlib

namespace WorkoutApi

/-- A timestamp, as produced by `datetime.utcnow()` (microseconds omitted). -/
structure DateTime where
  year : Nat
  month : Nat
  day : Nat
  hour : Nat
  minute : Nat
  second : Nat
deriving DecidableEq, Repr

/-- Zero-pad a numeral to two digits, as Python `%02d`. -/
def pad2 (n : Nat) : String :=
  if n < 10 then "0" ++ toString n else toString n

/-- Zero-pad a numeral to four digits, as Python `%04d`. -/
def pad4 (n : Nat) : String :=
  if n < 10 then "000" ++ toString n
  else if n < 100 then "00" ++ toString n
  else if n < 1000 then "0" ++ toString n
  else toString n

/-- `datetime.isoformat()`: `YYYY-MM-DDTHH:MM:SS`. -/
def DateTime.isoformat (d : DateTime) : String :=
  pad4 d.year ++ "-" ++ pad2 d.month ++ "-" ++ pad2 d.day ++ "T" ++
    pad2 d.hour ++ ":" ++ pad2 d.minute ++ ":" ++ pad2 d.second

/-- A `CategoriaModel` row: primary key and unique name. -/
structure Categoria where
  pk_id : Nat
  nome : String
deriving DecidableEq, Repr

/-- A `CentroTreinamentoModel` row: primary key and unique name. -/
structure CentroTreinamento where
  pk_id : Nat
  nome : String
deriving DecidableEq, Repr

/-- An `AtletaModel` row.  The UUID primary key `id` is modelled as a `Nat`
(`str(id)` becomes `toString id`); the numeric profile fields are modelled
as `Nat`. -/
structure AtletaModel where
  id : Nat
  created_at : DateTime
  nome : String
  cpf : String
  idade : Nat
  peso : Nat
  altura : Nat
  sexo : String
  categoria_id : Nat
  centro_treinamento_id : Nat
deriving DecidableEq, Repr

/-- The nested category reference of the request body (`atleta_in.categoria`). -/
structure CategoriaIn where
  nome : String
deriving DecidableEq, Repr

/-- The nested training-center reference of the request body
(`atleta_in.centro_treinamento`). -/
structure CentroTreinamentoIn where
  nome : String
deriving DecidableEq, Repr

/-- The validated create request body `AtletaIn`: profile fields plus the
category and training-center references by name. -/
structure AtletaIn where
  nome : String
  cpf : String
  idade : Nat
  peso : Nat
  altura : Nat
  sexo : String
  categoria : CategoriaIn
  centro_treinamento : CentroTreinamentoIn
deriving DecidableEq, Repr

/-- The create response body `AtletaOut`: the input fields plus the generated
`id` and `created_at`. -/
structure AtletaOut where
  id : Nat
  created_at : DateTime
  nome : String
  cpf : String
  idade : Nat
  peso : Nat
  altura : Nat
  sexo : String
  categoria : CategoriaIn
  centro_treinamento : CentroTreinamentoIn
deriving DecidableEq, Repr

/-- The logical data store reached through `db_session`: the three tables the
controller touches. -/
structure Store where
  categorias : List Categoria
  centros : List CentroTreinamento
  atletas : List AtletaModel
deriving DecidableEq, Repr

/-- An `HTTPException`: status code and detail message. -/
structure HTTPError where
  status_code : Nat
  detail : String
deriving DecidableEq, Repr

/-- Detail message of the 400 raised when the category is missing. -/
def categoriaNotFoundMsg (nome : String) : String :=
  s!"A categoria {nome} não foi encontrada."

/-- Detail message of the 400 raised when the training center is missing. -/
def centroNotFoundMsg (nome : String) : String :=
  s!"O centro de treinamento {nome} não foi encontrado."

/-- Detail message of the 303 raised on `IntegrityError`. -/
def cpfConflictMsg (cpf : String) : String :=
  s!"Já existe um atleta cadastrado com o cpf: {cpf}"

/-- Detail message of the 500 raised on any other exception. -/
def insertErrorMsg : String := "Ocorreu um erro ao inserir os dados no banco"

/-- Detail message of the 404 raised by patch and delete. -/
def atletaNotFoundMsg (id : Nat) : String :=
  s!"Atleta não encontrado no id: {id}"

/-- Outcome of the `try` block's `commit` (the store's verdict on the insert):
success, an `IntegrityError`, or any other exception. -/
inductive CommitOutcome where
  | success : CommitOutcome
  | integrityError : String → CommitOutcome
  | otherError : String → CommitOutcome
deriving DecidableEq, Repr

/-- The `post` handler (create), with the generated `uuid4()`, the
`datetime.utcnow()` timestamp and the commit outcome as explicit parameters.
Returns the response (success body or raised `HTTPException`) together with
the store after the request; on every error path the store is unchanged
(the transaction is rolled back by the store). -/
def post (store : Store) (atleta_in : AtletaIn) (id : Nat) (created_at : DateTime)
    (outcome : CommitOutcome) : Except HTTPError AtletaOut × Store :=
  match store.categorias.find? (fun c => c.nome == atleta_in.categoria.nome) with
  | none => (.error ⟨400, categoriaNotFoundMsg atleta_in.categoria.nome⟩, store)
  | some categoria =>
    match store.centros.find? (fun c => c.nome == atleta_in.centro_treinamento.nome) with
    | none => (.error ⟨400, centroNotFoundMsg atleta_in.centro_treinamento.nome⟩, store)
    | some centro =>
      let atleta_out : AtletaOut :=
        { id := id, created_at := created_at, nome := atleta_in.nome,
          cpf := atleta_in.cpf, idade := atleta_in.idade, peso := atleta_in.peso,
          altura := atleta_in.altura, sexo := atleta_in.sexo,
          categoria := atleta_in.categoria,
          centro_treinamento := atleta_in.centro_treinamento }
      let atleta_model : AtletaModel :=
        { id := id, created_at := created_at, nome := atleta_in.nome,
          cpf := atleta_in.cpf, idade := atleta_in.idade, peso := atleta_in.peso,
          altura := atleta_in.altura, sexo := atleta_in.sexo,
          categoria_id := categoria.pk_id,
          centro_treinamento_id := centro.pk_id }
      match outcome with
      | .success =>
        (.ok atleta_out, { store with atletas := store.atletas ++ [atleta_model] })
      | .integrityError _ =>
        (.error ⟨303, cpfConflictMsg atleta_model.cpf⟩, store)
      | .otherError _ =>
        (.error ⟨500, insertErrorMsg⟩, store)

/-- Modelled from the spec: the store (whose `AtletaModel` declaration is not
part of the controller source) enforces CPF uniqueness across the Athlete
collection and rejects a duplicate insert with an `IntegrityError` at commit. -/
def storeCommitOutcome (store : Store) (cpf : String) : CommitOutcome :=
  if store.atletas.any (fun a => a.cpf == cpf) then
    .integrityError "duplicate cpf" else .success

/-- The `post` handler driven by the store's own commit behaviour. -/
def postDB (store : Store) (atleta_in : AtletaIn) (id : Nat)
    (created_at : DateTime) : Except HTTPError AtletaOut × Store :=
  post store atleta_in id created_at (storeCommitOutcome store atleta_in.cpf)

/-- Pagination parameters of the pagination library (`Page` uses 1-based
`page` and `size` query parameters, defaults page 1, size 50), resolved from
the request context — not from the handler's `limit`/`offset` arguments. -/
structure Params where
  page : Nat
  size : Nat
deriving DecidableEq, Repr

/-- A page object returned by the pagination library. -/
structure Page (α : Type) where
  items : List α
  total : Nat
  page : Nat
  size : Nat
deriving DecidableEq, Repr

/-- Modelled from the library's documented behaviour: `paginate(seq)` slices
the in-memory sequence according to the context-resolved `Params` and records
the total count. -/
def paginate (xs : List α) (p : Params) : Page α :=
  { items := (xs.drop ((p.page - 1) * p.size)).take p.size,
    total := xs.length, page := p.page, size := p.size }

/-- The `query_with_pagination` handler (GET `/all`).  The route declares
`limit` (default 10) and `offset` (default 0) query parameters; the body
fetches the entire collection, raises 404 when it is empty, and otherwise
returns `paginate(atletas)` — called without `limit`/`offset`, which are
never used in the body; the slice is governed by the library's own
context-resolved `params`. -/
def query_with_pagination (store : Store) (limit : Nat) (offset : Nat)
    (params : Params) : Except HTTPError (Page AtletaModel) :=
  let atletas := store.atletas
  if atletas.isEmpty then
    .error ⟨404, "Nenhum atleta encontrado"⟩
  else
    .ok (paginate atletas params)

/-- Python truthiness of an `Optional[str]` query parameter: `if nome:` is
taken when the value is present and non-empty. -/
def truthy : Option String → Bool
  | none => false
  | some s => !s.isEmpty

/-- One `if param: query = query.filter(col == param)` step of the filtered
list handler. -/
def applyFilter (xs : List AtletaModel) (param : Option String)
    (col : AtletaModel → String) : List AtletaModel :=
  if truthy param then xs.filter (fun a => col a == param.getD "") else xs

/-- The lightweight projection built by the filtered list handler:
string-form id, ISO-8601 `created_at`, and the resolved reference names. -/
structure AtletaProjection where
  id : String
  created_at : String
  nome : String
  centro_treinamento : String
  categoria : String
deriving DecidableEq, Repr

/-- Modelled from the spec: the ORM relationship `atleta.categoria` (declared
in the model files, not in the controller source) resolves the stored
`categoria_id` to the Category row with that primary key. -/
def resolveCategoria (store : Store) (cid : Nat) : Option Categoria :=
  store.categorias.find? (fun c => c.pk_id == cid)

/-- Modelled from the spec: the ORM relationship `atleta.centro_treinamento`
resolves the stored `centro_treinamento_id` to the Training Center row with
that primary key. -/
def resolveCentro (store : Store) (cid : Nat) : Option CentroTreinamento :=
  store.centros.find? (fun c => c.pk_id == cid)

/-- The response item of the filtered list handler for one athlete row. -/
def projectAtleta (store : Store) (a : AtletaModel) : AtletaProjection :=
  { id := toString a.id,
    created_at := a.created_at.isoformat,
    nome := a.nome,
    centro_treinamento := ((resolveCentro store a.centro_treinamento_id).map
      (fun c => c.nome)).getD "",
    categoria := ((resolveCategoria store a.categoria_id).map
      (fun c => c.nome)).getD "" }

/-- The rows produced by the filtered select: the name filter applied when
the parameter is truthy, then the CPF filter likewise. -/
def filteredAtletas (store : Store) (nome : Option String)
    (cpf : Option String) : List AtletaModel :=
  applyFilter (applyFilter store.atletas nome (fun a => a.nome))
    cpf (fun a => a.cpf)

/-- The `query` handler (GET `/`, filtered list): apply the name filter when
the parameter is truthy, then the CPF filter likewise, 404 when nothing is
left, otherwise the list of projections. -/
def query (store : Store) (nome : Option String) (cpf : Option String) :
    Except HTTPError (List AtletaProjection) :=
  let atletas := filteredAtletas store nome cpf
  if atletas.isEmpty then
    .error ⟨404, "Nenhum atleta encontrado com os critérios fornecidos"⟩
  else
    .ok (atletas.map (projectAtleta store))

/-- Spec-side predicate for the filtered list: an athlete matches every
supplied filter, the two combined by logical AND. -/
def specMatches (nome : Option String) (cpf : Option String)
    (a : AtletaModel) : Bool :=
  (match nome with | some n => a.nome == n | none => true) &&
  (match cpf with | some c => a.cpf == c | none => true)

/-- Spec-side statement of the filtered list operation: exactly the athletes
matching every supplied filter, rendered as projections; 404 when none
match. -/
def querySpec (store : Store) (nome : Option String) (cpf : Option String) :
    Except HTTPError (List AtletaProjection) :=
  let l := store.atletas.filter (specMatches nome cpf)
  if l.isEmpty then
    .error ⟨404, "Nenhum atleta encontrado com os critérios fornecidos"⟩
  else
    .ok (l.map (projectAtleta store))

/-- Modelled from the spec: the partial update schema `AtletaUpdate`
(declared in the schema files, not in the controller source) carries the
mutable profile fields the caller wants to change, each optional; an unset
field is absent from `model_dump(exclude_unset=True)`. -/
structure AtletaUpdate where
  nome : Option String
  idade : Option Nat
deriving DecidableEq, Repr

/-- The `setattr` loop of the patch handler: apply exactly the fields present
in the update object to the stored row. -/
def applyUpdate (a : AtletaModel) (up : AtletaUpdate) : AtletaModel :=
  { a with nome := up.nome.getD a.nome, idade := up.idade.getD a.idade }

/-- The `patch` handler: look the athlete up by id (404 naming the id when
absent), apply the supplied fields, persist, and return the updated row. -/
def patch (store : Store) (id : Nat) (atleta_up : AtletaUpdate) :
    Except HTTPError AtletaModel × Store :=
  match store.atletas.find? (fun a => a.id == id) with
  | none => (.error ⟨404, atletaNotFoundMsg id⟩, store)
  | some atleta =>
    let updated := applyUpdate atleta atleta_up
    let atletas := store.atletas.map (fun a => if a.id == id then updated else a)
    (.ok updated, { store with atletas := atletas })

/-- The `delete` handler: look the athlete up by id (404 naming the id when
absent), otherwise remove that row and return no content (the route's
success status is 204 with an empty body, modelled as `Unit`). -/
def delete (store : Store) (id : Nat) : Except HTTPError Unit × Store :=
  match store.atletas.find? (fun a => a.id == id) with
  | none => (.error ⟨404, atletaNotFoundMsg id⟩, store)
  | some _ =>
    (.ok (), { store with atletas := store.atletas.eraseP (fun a => a.id == id) })

/-! ## Concrete data for witnesses and counterexamples -/

def t0 : DateTime := ⟨2024, 1, 2, 3, 4, 5⟩

def demoCategoria : Categoria := ⟨1, "CrossFit"⟩

def demoCentro : CentroTreinamento := ⟨1, "CT Alpha"⟩

def demoAtleta1 : AtletaModel :=
  ⟨1, t0, "Joao", "111.111.111-11", 25, 75, 170, "M", 1, 1⟩

def demoAtleta2 : AtletaModel :=
  ⟨2, t0, "Maria", "222.222.222-22", 30, 60, 160, "F", 1, 1⟩

def demoStore : Store := ⟨[demoCategoria], [demoCentro], [demoAtleta1, demoAtleta2]⟩

def emptyStore : Store := ⟨[demoCategoria], [demoCentro], []⟩

def bareStore : Store := ⟨[], [], []⟩

def demoIn : AtletaIn :=
  ⟨"Joao", "111.111.111-11", 25, 75, 170, "M", ⟨"CrossFit"⟩, ⟨"CT Alpha"⟩⟩

def defaultParams : Params := ⟨1, 50⟩

/-! ## Claims -/

/-- C1: the claim says the caller-supplied `limit` and `offset` are applied
as pagination over the fetched collection, so the returned page is the slice
they select.  In the code the two parameters are declared (with descriptions
saying exactly that) but never used: `paginate(atletas)` is called without
them.  At a two-athlete store the calls with `limit=1, offset=1` and with
the defaults `limit=10, offset=0` return the same page holding both
athletes, while the slice selected by `limit=1, offset=1` is the one-element
list `[demoAtleta2]`. -/
theorem query_with_pagination_ignores_limit_offset :
    query_with_pagination demoStore 1 1 defaultParams =
      query_with_pagination demoStore 10 0 defaultParams ∧
    query_with_pagination demoStore 1 1 defaultParams =
      .ok ⟨[demoAtleta1, demoAtleta2], 2, 1, 50⟩ ∧
    (demoStore.atletas.drop 1).take 1 = [demoAtleta2] ∧
    [demoAtleta1, demoAtleta2] ≠ [demoAtleta2] :=
  ⟨rfl, rfl, by decide, by decide⟩

/-- C5: on an empty athlete collection the paginated list raises 404
`Nenhum atleta encontrado`; a successful page is only ever returned on a
non-empty collection. -/
theorem query_with_pagination_empty_404 (store : Store) (limit offset : Nat)
    (params : Params) :
    (store.atletas = [] →
      query_with_pagination store limit offset params =
        .error ⟨404, "Nenhum atleta encontrado"⟩) ∧
    (∀ pg, query_with_pagination store limit offset params = .ok pg →
      store.atletas ≠ []) := by
  constructor
  · intro h
    simp [query_with_pagination, h]
  · intro pg h hne
    simp [query_with_pagination, hne] at h

/-- Witness for C5 at the concrete empty store. -/
theorem query_with_pagination_empty_404_witness :
    emptyStore.atletas = [] ∧
    query_with_pagination emptyStore 10 0 defaultParams =
      .error ⟨404, "Nenhum atleta encontrado"⟩ :=
  ⟨rfl, (query_with_pagination_empty_404 emptyStore 10 0 defaultParams).1 rfl⟩

/-- C9: an empty-string `nome` or `cpf` query parameter is falsy, so the
corresponding filter is not applied at all — the handler behaves exactly as
if the parameter were omitted. -/
theorem query_empty_string_filter_as_absent (store : Store)
    (nome cpf : Option String) :
    query store (some "") cpf = query store none cpf ∧
    query store nome (some "") = query store nome none := by
  constructor <;> simp [query, filteredAtletas, applyFilter, truthy, String.isEmpty]

/-- C2: when the named category is missing the create handler raises 400
naming the category and leaves the store untouched; when the category
resolves but the named training center is missing it raises 400 naming the
training center and leaves the store untouched. -/
theorem post_missing_reference (store : Store) (ain : AtletaIn) (id : Nat)
    (t : DateTime) (oc : CommitOutcome) :
    (store.categorias.find? (fun c => c.nome == ain.categoria.nome) = none →
      post store ain id t oc =
        (.error ⟨400, categoriaNotFoundMsg ain.categoria.nome⟩, store)) ∧
    (∀ c, store.categorias.find? (fun x => x.nome == ain.categoria.nome) = some c →
      store.centros.find? (fun x => x.nome == ain.centro_treinamento.nome) = none →
      post store ain id t oc =
        (.error ⟨400, centroNotFoundMsg ain.centro_treinamento.nome⟩, store)) := by
  constructor
  · intro h
    simp [post, h]
  · intro c hc hct
    simp [post, hc, hct]

/-- Witness for C2: on a store with no categories, creating `demoIn`
aborts with the 400 naming `CrossFit` and writes nothing. -/
theorem post_missing_reference_witness :
    bareStore.categorias.find? (fun c => c.nome == demoIn.categoria.nome) = none ∧
    post bareStore demoIn 7 t0 .success =
      (.error ⟨400, categoriaNotFoundMsg "CrossFit"⟩, bareStore) :=
  ⟨rfl, (post_missing_reference bareStore demoIn 7 t0 .success).1 rfl⟩

/-- C10: once both references resolve, every `IntegrityError` at commit —
whatever its message — is mapped to the 303 naming the request's CPF, and
every other exception is mapped to the generic 500; the store is unchanged
in both cases. -/
theorem post_commit_exception_mapping (store : Store) (ain : AtletaIn)
    (id : Nat) (t : DateTime) (c : Categoria) (ct : CentroTreinamento)
    (hc : store.categorias.find? (fun x => x.nome == ain.categoria.nome) = some c)
    (hct : store.centros.find? (fun x => x.nome == ain.centro_treinamento.nome) = some ct) :
    (∀ msg, post store ain id t (.integrityError msg) =
      (.error ⟨303, cpfConflictMsg ain.cpf⟩, store)) ∧
    (∀ msg, post store ain id t (.otherError msg) =
      (.error ⟨500, insertErrorMsg⟩, store)) := by
  constructor <;> intro msg <;> simp [post, hc, hct]

/-- Witness for C10 at the demo store. -/
theorem post_commit_exception_mapping_witness :
    demoStore.categorias.find? (fun x => x.nome == demoIn.categoria.nome) =
      some demoCategoria ∧
    demoStore.centros.find? (fun x => x.nome == demoIn.centro_treinamento.nome) =
      some demoCentro ∧
    post demoStore demoIn 7 t0 (.integrityError "dup") =
      (.error ⟨303, cpfConflictMsg "111.111.111-11"⟩, demoStore) :=
  ⟨by decide, by decide,
    (post_commit_exception_mapping demoStore demoIn 7 t0 demoCategoria
      demoCentro (by decide) (by decide)).1 "dup"⟩

/-- C3: when both references resolve and the request's CPF equals the CPF of
an already-persisted athlete, the store rejects the insert at commit and the
handler answers 303 naming that CPF, with the athlete collection unchanged. -/
theorem postDB_duplicate_cpf (store : Store) (ain : AtletaIn) (id : Nat)
    (t : DateTime) (c : Categoria) (ct : CentroTreinamento)
    (hc : store.categorias.find? (fun x => x.nome == ain.categoria.nome) = some c)
    (hct : store.centros.find? (fun x => x.nome == ain.centro_treinamento.nome) = some ct)
    (hdup : store.atletas.any (fun a => a.cpf == ain.cpf) = true) :
    postDB store ain id t = (.error ⟨303, cpfConflictMsg ain.cpf⟩, store) := by
  simp [postDB, storeCommitOutcome, hdup, post, hc, hct]

/-- Witness for C3: re-creating `demoIn`, whose CPF is already persisted as
`demoAtleta1`, answers the 303 conflict and changes nothing. -/
theorem postDB_duplicate_cpf_witness :
    demoStore.atletas.any (fun a => a.cpf == demoIn.cpf) = true ∧
    postDB demoStore demoIn 9 t0 =
      (.error ⟨303, cpfConflictMsg "111.111.111-11"⟩, demoStore) :=
  ⟨by decide, postDB_duplicate_cpf demoStore demoIn 9 t0 demoCategoria
    demoCentro (by decide) (by decide) (by decide)⟩

/-! ## Helper lemmas -/

lemma applyFilter_none (xs : List AtletaModel) (col : AtletaModel → String) :
    applyFilter xs none col = xs := by
  simp [applyFilter, truthy]

lemma applyFilter_some (xs : List AtletaModel) (col : AtletaModel → String)
    (s : String) (h : s ≠ "") :
    applyFilter xs (some s) col = xs.filter (fun a => col a == s) := by
  have hs : s.isEmpty = false := by
    by_contra hcon
    have h2 : s.isEmpty = true := by simpa using hcon
    rw [String.isEmpty_iff] at h2
    exact h h2
  simp [applyFilter, truthy, hs]

lemma applyFilter_empty_string (xs : List AtletaModel)
    (col : AtletaModel → String) :
    applyFilter xs (some "") col = xs := by
  simp [applyFilter, truthy, String.isEmpty]

lemma query_of_mem (store : Store) (nome cpf : Option String) (a : AtletaModel)
    (ha : a ∈ filteredAtletas store nome cpf) :
    query store nome cpf =
      .ok ((filteredAtletas store nome cpf).map (projectAtleta store)) := by
  have hne : filteredAtletas store nome cpf ≠ [] := List.ne_nil_of_mem ha
  have : (filteredAtletas store nome cpf).isEmpty = false := by
    simpa [List.isEmpty_iff] using hne
  simp [query, this]

/-- C6: whenever each supplied filter is non-empty, the filtered list
handler computes exactly the spec-side result: the athletes matching every
supplied filter (logical AND), as projections, and 404 when none match. -/
theorem query_matches_querySpec (store : Store) (nome cpf : Option String)
    (hn : ∀ s, nome = some s → s ≠ "")
    (hc : ∀ s, cpf = some s → s ≠ "") :
    query store nome cpf = querySpec store nome cpf := by
  have key : filteredAtletas store nome cpf =
      store.atletas.filter (specMatches nome cpf) := by
    cases nome with
    | none =>
      cases cpf with
      | none =>
        rw [filteredAtletas, applyFilter_none, applyFilter_none]
        exact (((List.filter_congr (fun a _ => by simp [specMatches])).trans
          (List.filter_true _))).symm
      | some c =>
        rw [filteredAtletas, applyFilter_none,
          applyFilter_some _ _ c (hc c rfl)]
        exact List.filter_congr (fun a _ => by simp [specMatches])
    | some n =>
      cases cpf with
      | none =>
        rw [filteredAtletas, applyFilter_some _ _ n (hn n rfl), applyFilter_none]
        exact List.filter_congr (fun a _ => by simp [specMatches])
      | some c =>
        rw [filteredAtletas, applyFilter_some _ _ n (hn n rfl),
          applyFilter_some _ _ c (hc c rfl), List.filter_filter]
        exact List.filter_congr (fun a _ => by simp [specMatches, Bool.and_comm])
  simp only [query, querySpec, key]

/-- Witness for C6: filtering the demo store by the name `Joao`. -/
theorem query_matches_querySpec_witness :
    (∀ s, (some "Joao" : Option String) = some s → s ≠ "") ∧
    (∀ s, (none : Option String) = some s → s ≠ "") ∧
    query demoStore (some "Joao") none = querySpec demoStore (some "Joao") none := by
  have h1 : ∀ s, (some "Joao" : Option String) = some s → s ≠ "" := by
    intro s hs
    cases hs
    decide
  have h2 : ∀ s, (none : Option String) = some s → s ≠ "" := by
    intro s hs
    cases hs
  exact ⟨h1, h2, query_matches_querySpec demoStore (some "Joao") none h1 h2⟩

/-- C7: patching an existing athlete changes exactly the supplied fields:
each unset field of the update keeps its prior value, each set field takes
the supplied value, and `id`, `created_at` and every other stored field are
unchanged. -/
theorem patch_partial_update (store : Store) (id : Nat) (up : AtletaUpdate)
    (a : AtletaModel)
    (h : store.atletas.find? (fun x => x.id == id) = some a) :
    ∃ a2 st2, patch store id up = (.ok a2, st2) ∧
      a2.id = a.id ∧ a2.created_at = a.created_at ∧
      a2.cpf = a.cpf ∧ a2.peso = a.peso ∧ a2.altura = a.altura ∧
      a2.sexo = a.sexo ∧ a2.categoria_id = a.categoria_id ∧
      a2.centro_treinamento_id = a.centro_treinamento_id ∧
      (up.nome = none → a2.nome = a.nome) ∧
      (∀ v, up.nome = some v → a2.nome = v) ∧
      (up.idade = none → a2.idade = a.idade) ∧
      (∀ v, up.idade = some v → a2.idade = v) := by
  refine ⟨applyUpdate a up, { store with atletas := store.atletas.map (fun x => if x.id == id then applyUpdate a up else x) }, ?_, rfl, rfl, rfl, rfl, rfl, rfl, rfl, rfl, ?_, ?_, ?_, ?_⟩
  · simp [patch, h]
  · intro hn
    simp [applyUpdate, hn]
  · intro v hn
    simp [applyUpdate, hn]
  · intro hn
    simp [applyUpdate, hn]
  · intro v hn
    simp [applyUpdate, hn]

/-- Witness for C7: renaming `demoAtleta1` only. -/
theorem patch_partial_update_witness :
    demoStore.atletas.find? (fun x => x.id == 1) = some demoAtleta1 ∧
    (∃ a2 st2, patch demoStore 1 ⟨some "Carlos", none⟩ = (.ok a2, st2) ∧
      a2.id = demoAtleta1.id ∧ a2.created_at = demoAtleta1.created_at ∧
      a2.cpf = demoAtleta1.cpf ∧ a2.peso = demoAtleta1.peso ∧
      a2.altura = demoAtleta1.altura ∧ a2.sexo = demoAtleta1.sexo ∧
      a2.categoria_id = demoAtleta1.categoria_id ∧
      a2.centro_treinamento_id = demoAtleta1.centro_treinamento_id ∧
      ((⟨some "Carlos", none⟩ : AtletaUpdate).nome = none → a2.nome = demoAtleta1.nome) ∧
      (∀ v, (⟨some "Carlos", none⟩ : AtletaUpdate).nome = some v → a2.nome = v) ∧
      ((⟨some "Carlos", none⟩ : AtletaUpdate).idade = none → a2.idade = demoAtleta1.idade) ∧
      (∀ v, (⟨some "Carlos", none⟩ : AtletaUpdate).idade = some v → a2.idade = v)) :=
  ⟨by decide, patch_partial_update demoStore 1 ⟨some "Carlos", none⟩ demoAtleta1 (by decide)⟩

lemma eraseP_no_remaining {l : List AtletaModel} {id : Nat}
    (hnodup : (l.map (fun a => a.id)).Nodup) {a : AtletaModel}
    (ha : a ∈ l) (hp : (a.id == id) = true) :
    ∀ x ∈ l.eraseP (fun x => x.id == id), x.id ≠ id := by
  obtain ⟨a2, l₁, l₂, h₁, h₂, h₃, h₄⟩ :=
    @List.exists_of_eraseP AtletaModel (fun x => x.id == id) l a ha hp
  rw [h₄]
  intro x hx hxid
  rcases List.mem_append.1 hx with hx1 | hx2
  · have := h₁ x hx1
    simp [hxid] at this
  · have hmap : ((l₁ ++ a2 :: l₂).map (fun a => a.id)).Nodup := h₃ ▸ hnodup
    rw [List.map_append, List.map_cons] at hmap
    have hc := List.nodup_cons.1 hmap.of_append_right
    have ha2id : a2.id = id := by simpa using h₂
    have hxm : x.id ∈ l₂.map (fun a => a.id) := List.mem_map_of_mem _ hx2
    rw [hxid, ← ha2id] at hxm
    exact hc.1 hxm

/-- C8: with unique athlete ids, deleting an existing id removes that row —
the response is success with no content and no row with the id remains —
and a second delete of the same id (or a delete of an absent id) answers
404 naming the id and leaves the store unchanged. -/
theorem delete_then_delete (store : Store) (id : Nat)
    (hnodup : (store.atletas.map (fun a => a.id)).Nodup) :
    (∀ a, store.atletas.find? (fun x => x.id == id) = some a →
      delete store id = (.ok (), { store with atletas := store.atletas.eraseP (fun x => x.id == id) }) ∧
      (∀ x ∈ store.atletas.eraseP (fun x => x.id == id), x.id ≠ id) ∧
      delete { store with atletas := store.atletas.eraseP (fun x => x.id == id) } id =
        (.error ⟨404, atletaNotFoundMsg id⟩, { store with atletas := store.atletas.eraseP (fun x => x.id == id) })) ∧
    (store.atletas.find? (fun x => x.id == id) = none →
      delete store id = (.error ⟨404, atletaNotFoundMsg id⟩, store)) := by
  constructor
  · intro a ha
    have hp := List.find?_some ha
    have hmem := List.mem_of_find?_eq_some ha
    have hno := eraseP_no_remaining hnodup hmem hp
    have hfind : (store.atletas.eraseP (fun x => x.id == id)).find?
        (fun x => x.id == id) = none := by
      rw [List.find?_eq_none]
      intro x hx
      simpa using hno x hx
    exact ⟨by simp [delete, ha], hno, by simp [delete, hfind]⟩
  · intro h
    simp [delete, h]

/-- Witness for C8 at the demo store, deleting id 1. -/
theorem delete_then_delete_witness :
    (demoStore.atletas.map (fun a => a.id)).Nodup ∧
    demoStore.atletas.find? (fun x => x.id == 1) = some demoAtleta1 ∧
    delete demoStore 1 = (.ok (), { demoStore with atletas := demoStore.atletas.eraseP (fun x => x.id == 1) }) := by
  refine ⟨by decide, by decide, ?_⟩
  exact ((delete_then_delete demoStore 1 (by decide)).1 demoAtleta1 (by decide)).1

lemma resolveCategoria_of_mem (store : Store) (c : Categoria)
    (hnodup : (store.categorias.map (fun x => x.pk_id)).Nodup)
    (hm : c ∈ store.categorias) :
    resolveCategoria store c.pk_id = some c := by
  cases hf : store.categorias.find? (fun x => x.pk_id == c.pk_id) with
  | none =>
    rw [List.find?_eq_none] at hf
    exact absurd (by simp : (c.pk_id == c.pk_id) = true) (hf c hm)
  | some c2 =>
    have h1 := List.find?_some hf
    have h2 := List.mem_of_find?_eq_some hf
    have he : c2 = c := List.inj_on_of_nodup_map hnodup h2 hm (by simpa using h1)
    rw [resolveCategoria, hf, he]

lemma resolveCentro_of_mem (store : Store) (c : CentroTreinamento)
    (hnodup : (store.centros.map (fun x => x.pk_id)).Nodup)
    (hm : c ∈ store.centros) :
    resolveCentro store c.pk_id = some c := by
  cases hf : store.centros.find? (fun x => x.pk_id == c.pk_id) with
  | none =>
    rw [List.find?_eq_none] at hf
    exact absurd (by simp : (c.pk_id == c.pk_id) = true) (hf c hm)
  | some c2 =>
    have h1 := List.find?_some hf
    have h2 := List.mem_of_find?_eq_some hf
    have he : c2 = c := List.inj_on_of_nodup_map hnodup h2 hm (by simpa using h1)
    rw [resolveCentro, hf, he]

/-- C4: with unique reference primary keys, every athlete successfully
created with name N, category C and training center T appears, after the
create, in the filtered list for name N as a projection whose `categoria`
is C and whose `centro_treinamento` is T. -/
theorem create_then_filtered_list (store : Store) (ain : AtletaIn) (id : Nat)
    (t : DateTime) (out : AtletaOut) (store2 : Store)
    (hpkc : (store.categorias.map (fun c => c.pk_id)).Nodup)
    (hpkt : (store.centros.map (fun c => c.pk_id)).Nodup)
    (hpost : postDB store ain id t = (.ok out, store2)) :
    ∃ l, query store2 (some ain.nome) none = .ok l ∧
      ∃ p, p ∈ l ∧ p.nome = ain.nome ∧ p.categoria = ain.categoria.nome ∧
        p.centro_treinamento = ain.centro_treinamento.nome := by
  simp only [postDB, storeCommitOutcome, post] at hpost
  cases hfc : store.categorias.find? (fun c => c.nome == ain.categoria.nome) with
  | none =>
    rw [hfc] at hpost
    simp at hpost
  | some c =>
  rw [hfc] at hpost
  cases hft : store.centros.find? (fun x => x.nome == ain.centro_treinamento.nome) with
  | none =>
    rw [hft] at hpost
    simp at hpost
  | some ct =>
  rw [hft] at hpost
  cases hdup : store.atletas.any (fun a => a.cpf == ain.cpf) with
  | true =>
    rw [hdup] at hpost
    simp at hpost
  | false =>
  rw [hdup] at hpost
  simp at hpost
  obtain ⟨hout, hst⟩ := hpost
  subst hst
  have hcn : c.nome = ain.categoria.nome := by simpa using List.find?_some hfc
  have hctn : ct.nome = ain.centro_treinamento.nome := by
    simpa using List.find?_some hft
  have hcm := List.mem_of_find?_eq_some hfc
  have hctm := List.mem_of_find?_eq_some hft
  set am : AtletaModel :=
    ⟨id, t, ain.nome, ain.cpf, ain.idade, ain.peso, ain.altura, ain.sexo,
      c.pk_id, ct.pk_id⟩ with ham
  set store2 : Store := { store with atletas := store.atletas ++ [am] } with hs2
  have hamem : am ∈ store2.atletas := by
    simp [hs2]
  have hafil : am ∈ filteredAtletas store2 (some ain.nome) none := by
    rw [filteredAtletas, applyFilter_none]
    by_cases hne : ain.nome = ""
    · rw [hne, applyFilter_empty_string]
      exact hamem
    · rw [applyFilter_some _ _ _ hne]
      exact List.mem_filter.2 ⟨hamem, by simp [ham]⟩
  have hq := query_of_mem store2 (some ain.nome) none am hafil
  refine ⟨_, hq, projectAtleta store2 am, List.mem_map_of_mem _ hafil, rfl, ?_, ?_⟩
  · have hres : resolveCategoria store2 c.pk_id = some c :=
      resolveCategoria_of_mem store2 c hpkc hcm
    simp [projectAtleta, ham, hres, hcn]
  · have hres : resolveCentro store2 ct.pk_id = some ct :=
      resolveCentro_of_mem store2 ct hpkt hctm
    simp [projectAtleta, ham, hres, hctn]

def demoIn2 : AtletaIn :=
  ⟨"Pedro", "333.333.333-33", 28, 80, 180, "M", ⟨"CrossFit"⟩, ⟨"CT Alpha"⟩⟩

def demoAtleta3 : AtletaModel :=
  ⟨3, t0, "Pedro", "333.333.333-33", 28, 80, 180, "M", 1, 1⟩

def demoOut2 : AtletaOut :=
  ⟨3, t0, "Pedro", "333.333.333-33", 28, 80, 180, "M", ⟨"CrossFit"⟩, ⟨"CT Alpha"⟩⟩

def demoStore2 : Store :=
  ⟨[demoCategoria], [demoCentro], [demoAtleta1, demoAtleta2, demoAtleta3]⟩

/-- Witness for C4: creating `Pedro` on the demo store and then filtering by
his name. -/
theorem create_then_filtered_list_witness :
    (demoStore.categorias.map (fun c => c.pk_id)).Nodup ∧
    (demoStore.centros.map (fun c => c.pk_id)).Nodup ∧
    postDB demoStore demoIn2 3 t0 = (.ok demoOut2, demoStore2) ∧
    (∃ l, query demoStore2 (some "Pedro") none = .ok l ∧
      ∃ p, p ∈ l ∧ p.nome = "Pedro" ∧ p.categoria = "CrossFit" ∧
        p.centro_treinamento = "CT Alpha") := by
  refine ⟨by decide, by decide, rfl, ?_⟩
  exact create_then_filtered_list demoStore demoIn2 3 t0 demoOut2 demoStore2
    (by decide) (by decide) rfl
